import Mathlib

/-
Shallow embedding of the Pomodoro timer state machine.

The repository contains two near-identical reducers: a standalone module
(part_000, with helpers clampMin / secondsForMode / nextMode) and the App
component (part_001) whose inline reducer additionally handles SET_MODE and
TOGGLE_SOUND and tracks soundEnabled.  We embed the part_001 reducer, which
is a superset; on the shared actions the two sources coincide literally.

JavaScript numbers are modelled as rationals.  A raw config field arriving
from the form is modelled by the result of its coercion with Number:
Option Rat, where none stands for NaN (invalid or missing input).  Nonfinite
numeric inputs (Infinity) are outside the model.  JS remainder a % b
truncates the quotient toward zero; jsMod reproduces that for b that is not 0
(the only case the program exercises: longEvery is at least 1 in every
config the reducer builds).
-/

namespace Pomodoro

inductive Mode where
  | work
  | shortBreak
  | longBreak
deriving DecidableEq, Repr

inductive Status where
  | idle
  | running
  | paused
deriving DecidableEq, Repr

structure Config where
  workMin : ℚ
  shortMin : ℚ
  longMin : ℚ
  longEvery : ℚ
deriving DecidableEq, Repr

structure TimerState where
  mode : Mode
  status : Status
  config : Config
  secondsLeft : ℚ
  workSessionsCompleted : ℕ
  announce : String
  soundEnabled : Bool
deriving DecidableEq, Repr

/-- Raw APPLY_CONFIG payload, each field already put through the Number
coercion: none is NaN (a missing field or a string that does not parse). -/
structure RawConfig where
  workMin : Option ℚ
  shortMin : Option ℚ
  longMin : Option ℚ
  longEvery : Option ℚ
deriving DecidableEq, Repr

inductive Action where
  | start
  | pause
  | resume
  | resetSession
  | setMode (m : Mode)
  | toggleSound
  | applyConfig (payload : RawConfig)
  | tick
deriving DecidableEq, Repr

/-- Source: modeLabels map (part_001 lines 3-7; identical in part_000). -/
def modeLabel : Mode → String
  | Mode.work => "Work"
  | Mode.shortBreak => "Short Break"
  | Mode.longBreak => "Long Break"

/-- Source: secondsForMode (part_001 lines 9-13; identical in part_000). -/
def secondsForMode (mode : Mode) (config : Config) : ℚ :=
  if mode = Mode.work then config.workMin * 60
  else if mode = Mode.shortBreak then config.shortMin * 60
  else config.longMin * 60

/-- Semantics of the JS expression x || d for a number x: NaN and 0 are
falsy, every other number is truthy. -/
def jsOrDefault (v : Option ℚ) (d : ℚ) : ℚ :=
  match v with
  | none => d
  | some q => if q = 0 then d else q

/-- Source: clampMin (src/utils/time.js line 9 and part_001 line 15),
Math.max(1, Number(v) || 1). -/
def clampMin (v : Option ℚ) : ℚ :=
  max 1 (jsOrDefault v 1)

/-- JS truncation toward zero of a rational. -/
def jsTrunc (q : ℚ) : ℤ :=
  if 0 ≤ q then ⌊q⌋ else ⌈q⌉

/-- JS remainder a % b, which is a - b * trunc(a / b).  Faithful whenever
b is not 0; the program only ever passes b = longEvery, which every config
it builds keeps at 1 or more. -/
def jsMod (a b : ℚ) : ℚ :=
  a - b * (jsTrunc (a / b) : ℚ)

/-- Source: nextMode (part_000 lines 15-20); part_001 inlines the same
computation in its TICK case (lines 95-100). -/
def nextMode (currentMode : Mode) (nextWorkCount : ℕ) (config : Config) : Mode :=
  if currentMode = Mode.work then
    if jsMod (nextWorkCount : ℚ) config.longEvery = 0 then Mode.longBreak
    else Mode.shortBreak
  else Mode.work

/-- Source: initialState (part_001 lines 23-31; part_000 lacks only
soundEnabled). -/
def initialState : TimerState :=
  { mode := Mode.work
    status := Status.idle
    config := { workMin := 25, shortMin := 5, longMin := 15, longEvery := 4 }
    secondsLeft := 25 * 60
    workSessionsCompleted := 0
    announce := ""
    soundEnabled := true }

/-- Source: reducer (part_001 lines 33-114).  part_000 lines 31-87 is the
same function without the setMode and toggleSound cases. -/
def reducer (state : TimerState) (action : Action) : TimerState :=
  match action with
  | Action.start =>
      if state.status = Status.running then state
      else { state with status := Status.running, announce := "" }
  | Action.pause =>
      if state.status ≠ Status.running then state
      else { state with status := Status.paused, announce := "" }
  | Action.resume =>
      if state.status ≠ Status.paused then state
      else { state with status := Status.running, announce := "" }
  | Action.resetSession =>
      { state with
        status := Status.idle
        secondsLeft := secondsForMode state.mode state.config
        announce := "Session reset" }
  | Action.setMode m =>
      { state with
        mode := m
        status := Status.idle
        secondsLeft := secondsForMode m state.config
        announce := "Session: " ++ modeLabel m }
  | Action.toggleSound =>
      { state with soundEnabled := !state.soundEnabled, announce := "" }
  | Action.applyConfig payload =>
      let cfg : Config :=
        { workMin := clampMin payload.workMin
          shortMin := clampMin payload.shortMin
          longMin := clampMin payload.longMin
          longEvery := max 1 (jsOrDefault payload.longEvery 4) }
      { state with
        config := cfg
        status := Status.idle
        secondsLeft := secondsForMode state.mode cfg
        announce := "Settings applied" }
  | Action.tick =>
      if state.status ≠ Status.running then state
      else
        let next := state.secondsLeft - 1
        if next > 0 then { state with secondsLeft := next }
        else
          let workCount :=
            if state.mode = Mode.work then state.workSessionsCompleted + 1
            else state.workSessionsCompleted
          let mode2 := nextMode state.mode workCount state.config
          { state with
            mode := mode2
            workSessionsCompleted := workCount
            secondsLeft := secondsForMode mode2 state.config
            announce := "Session complete. Next: " ++ modeLabel mode2 }

/-- Run a list of actions from a state, oldest first. -/
def runActions (s : TimerState) (l : List Action) : TimerState :=
  l.foldl reducer s

/-- States the application can be in: everything obtainable from
initialState by dispatching actions. -/
def Reachable (s : TimerState) : Prop :=
  ∃ l : List Action, runActions initialState l = s

/-- All four config fields are at least 1. -/
def ConfigGood (c : Config) : Prop :=
  1 ≤ c.workMin ∧ 1 ≤ c.shortMin ∧ 1 ≤ c.longMin ∧ 1 ≤ c.longEvery

/-- The invariant the reducer maintains: a well-formed config and a
positive countdown. -/
def StateInv (s : TimerState) : Prop :=
  ConfigGood s.config ∧ 0 < s.secondsLeft

/-- A Work session one tick away from completion, with n sessions already
on the counter and the default config (longEvery = 4). -/
def workCompletionState (n : ℕ) : TimerState :=
  { initialState with
    status := Status.running
    secondsLeft := 1
    workSessionsCompleted := n }

-- Helper lemmas, shared by several claim theorems below.

theorem jsTrunc_intCast (k : ℤ) : jsTrunc (k : ℚ) = k := by
  unfold jsTrunc
  split <;> simp

theorem jsMod_eq_zero_iff (a b : ℚ) (hb : b ≠ 0) :
    jsMod a b = 0 ↔ ∃ k : ℤ, a = b * k := by
  constructor
  · intro h
    exact ⟨jsTrunc (a / b), by unfold jsMod at h; linarith⟩
  · rintro ⟨k, rfl⟩
    unfold jsMod
    rw [mul_comm b (k : ℚ), mul_div_assoc, div_self hb, mul_one, jsTrunc_intCast]
    ring

theorem clampMin_ge_one (v : Option ℚ) : 1 ≤ clampMin v := le_max_left _ _

theorem secondsForMode_pos (m : Mode) (c : Config) (h : ConfigGood c) :
    0 < secondsForMode m c := by
  obtain ⟨h1, h2, h3, h4⟩ := h
  unfold secondsForMode
  split
  · linarith
  · split <;> linarith

theorem reducer_preserves_inv (s : TimerState) (a : Action) (h : StateInv s) :
    StateInv (reducer s a) := by
  obtain ⟨hc, hs⟩ := h
  cases a with
  | start => simp only [reducer]; split <;> exact ⟨hc, hs⟩
  | pause => simp only [reducer]; split <;> exact ⟨hc, hs⟩
  | resume => simp only [reducer]; split <;> exact ⟨hc, hs⟩
  | resetSession => exact ⟨hc, secondsForMode_pos _ _ hc⟩
  | setMode m => exact ⟨hc, secondsForMode_pos _ _ hc⟩
  | toggleSound => exact ⟨hc, hs⟩
  | applyConfig p =>
    have hcfg : ConfigGood
        { workMin := clampMin p.workMin, shortMin := clampMin p.shortMin,
          longMin := clampMin p.longMin, longEvery := max 1 (jsOrDefault p.longEvery 4) } :=
      ⟨clampMin_ge_one _, clampMin_ge_one _, clampMin_ge_one _, le_max_left _ _⟩
    exact ⟨hcfg, secondsForMode_pos _ _ hcfg⟩
  | tick =>
    simp only [reducer]
    split
    · exact ⟨hc, hs⟩
    · split
      · next hpos => exact ⟨hc, hpos⟩
      · exact ⟨hc, secondsForMode_pos _ _ hc⟩

theorem runActions_inv (l : List Action) (s : TimerState) (h : StateInv s) :
    StateInv (runActions s l) := by
  induction l generalizing s with
  | nil => exact h
  | cons a l ih => exact ih _ (reducer_preserves_inv s a h)

theorem initialState_inv : StateInv initialState := by
  refine ⟨⟨?_, ?_, ?_, ?_⟩, ?_⟩ <;> norm_num [initialState]

theorem reachable_inv (s : TimerState) (h : Reachable s) : StateInv s := by
  obtain ⟨l, rfl⟩ := h
  exact runActions_inv l initialState initialState_inv

/-- Claim C1: ticking a Running state with one second left completes the
session: the work counter is incremented exactly when the old mode was
Work, the mode rolls over via nextMode, the countdown resets to the new
mode's duration, the announcement reports the next session, and the status
stays Running. -/
theorem tick_at_one_completes_session (s : TimerState)
    (hrun : s.status = Status.running) (h1 : s.secondsLeft = 1) :
    reducer s Action.tick =
      { s with
        mode := nextMode s.mode (if s.mode = Mode.work then s.workSessionsCompleted + 1 else s.workSessionsCompleted) s.config,
        workSessionsCompleted := (if s.mode = Mode.work then s.workSessionsCompleted + 1 else s.workSessionsCompleted),
        secondsLeft := secondsForMode (nextMode s.mode (if s.mode = Mode.work then s.workSessionsCompleted + 1 else s.workSessionsCompleted) s.config) s.config,
        announce := "Session complete. Next: " ++ modeLabel (nextMode s.mode (if s.mode = Mode.work then s.workSessionsCompleted + 1 else s.workSessionsCompleted) s.config) } ∧
    (reducer s Action.tick).status = Status.running := by
  constructor
  · simp [reducer, hrun, h1]
  · simp [reducer, hrun, h1]

/-- Witness for C1: from the default Work state, running with one second
left and no completed sessions, a tick yields Short Break, counter 1,
300 seconds, the completion announcement, and status still Running. -/
theorem tick_at_one_completes_session_witness :
    (workCompletionState 0).status = Status.running ∧
    (workCompletionState 0).secondsLeft = 1 ∧
    reducer (workCompletionState 0) Action.tick =
      { workCompletionState 0 with
        mode := Mode.shortBreak,
        workSessionsCompleted := 1,
        secondsLeft := 300,
        announce := "Session complete. Next: Short Break" } ∧
    (reducer (workCompletionState 0) Action.tick).status = Status.running := by
  have h := tick_at_one_completes_session (workCompletionState 0) rfl rfl
  refine ⟨rfl, rfl, h.1.trans ?_, h.2⟩
  norm_num [workCompletionState, initialState, nextMode, jsMod, jsTrunc, secondsForMode, modeLabel]
  exact ⟨by decide, rfl⟩

/-- Claim C2: the rollover rule.  For any config with longEvery at least 1
(every config a completion can see), from Work the next mode is LongBreak
exactly when the new work count is a multiple of longEvery and ShortBreak
otherwise, and from either break the next mode is Work; concretely, with
the default config (longEvery = 4) completing work sessions 1, 2, 3 yields
ShortBreak and completing the 4th yields LongBreak. -/
theorem session_rollover_rule :
    (∀ cfg : Config, 1 ≤ cfg.longEvery →
      (∀ wc : ℕ, (∃ k : ℤ, (wc : ℚ) = cfg.longEvery * k) →
        nextMode Mode.work wc cfg = Mode.longBreak) ∧
      (∀ wc : ℕ, ¬ (∃ k : ℤ, (wc : ℚ) = cfg.longEvery * k) →
        nextMode Mode.work wc cfg = Mode.shortBreak) ∧
      (∀ (m : Mode) (wc : ℕ), m ≠ Mode.work → nextMode m wc cfg = Mode.work)) ∧
    ((reducer (workCompletionState 0) Action.tick).mode = Mode.shortBreak ∧
     (reducer (workCompletionState 1) Action.tick).mode = Mode.shortBreak ∧
     (reducer (workCompletionState 2) Action.tick).mode = Mode.shortBreak ∧
     (reducer (workCompletionState 3) Action.tick).mode = Mode.longBreak) := by
  constructor
  · intro cfg hle
    have hb : cfg.longEvery ≠ 0 := by linarith
    refine ⟨?_, ?_, ?_⟩
    · intro wc hdvd
      unfold nextMode
      rw [if_pos rfl, if_pos ((jsMod_eq_zero_iff _ _ hb).2 hdvd)]
    · intro wc hdvd
      unfold nextMode
      rw [if_pos rfl, if_neg (fun h => hdvd ((jsMod_eq_zero_iff _ _ hb).1 h))]
    · intro m wc hm
      unfold nextMode
      rw [if_neg hm]
  · refine ⟨?_, ?_, ?_, ?_⟩ <;>
      norm_num [reducer, workCompletionState, initialState, nextMode, jsMod, jsTrunc]

/-- Witness for C2: the default config has longEvery = 4, so a new work
count of 8 (a multiple of 4) rolls over to LongBreak. -/
theorem session_rollover_rule_witness :
    (1 : ℚ) ≤ initialState.config.longEvery ∧
    nextMode Mode.work 8 initialState.config = Mode.longBreak :=
  ⟨by norm_num [initialState],
   (session_rollover_rule.1 initialState.config (by norm_num [initialState])).1 8
     ⟨2, by norm_num [initialState]⟩⟩

/-- Counterexample to C3 as stated: the reachable state obtained by
applying the payload workMin = 2.5 has config.workMin = 5/2, which is no
integer, so the config fields are not always positive integers. -/
theorem config_integrality_counterexample :
    Reachable (reducer initialState (Action.applyConfig ⟨some (5/2), some 5, some 15, some 4⟩)) ∧
    (reducer initialState (Action.applyConfig ⟨some (5/2), some 5, some 15, some 4⟩)).config.workMin = 5/2 ∧
    ¬ ∃ n : ℤ, (reducer initialState (Action.applyConfig ⟨some (5/2), some 5, some 15, some 4⟩)).config.workMin = (n : ℚ) := by
  have hval : (reducer initialState (Action.applyConfig ⟨some (5/2), some 5, some 15, some 4⟩)).config.workMin = 5/2 := by
    simp only [reducer, clampMin, jsOrDefault]
    norm_num
  refine ⟨⟨[Action.applyConfig ⟨some (5/2), some 5, some 15, some 4⟩], rfl⟩, hval, ?_⟩
  rw [hval]
  rintro ⟨n, hn⟩
  have h2 : (5 : ℚ) = 2 * (n : ℚ) := by field_simp at hn; linarith
  have h3 : (5 : ℤ) = 2 * n := by exact_mod_cast h2
  omega

/-- Claim C3 as amended: every ApplyConfig result keeps all four config
fields at 1 or more regardless of the raw payload, and every state
reachable from the initial state satisfies the same bound (integrality,
however, can fail, as the counterexample shows). -/
theorem config_fields_ge_one :
    (∀ (s : TimerState) (p : RawConfig), ConfigGood (reducer s (Action.applyConfig p)).config) ∧
    (∀ s : TimerState, Reachable s → ConfigGood s.config) := by
  constructor
  · intro s p
    exact ⟨clampMin_ge_one _, clampMin_ge_one _, clampMin_ge_one _, le_max_left _ _⟩
  · intro s h
    exact (reachable_inv s h).1

/-- Witness for C3 (amended): the all-invalid payload still produces a
well-formed config, and the initial state (reachable by the empty action
list) has one too. -/
theorem config_fields_ge_one_witness :
    ConfigGood (reducer initialState (Action.applyConfig ⟨none, some (-5), some 10, some 0⟩)).config ∧
    ConfigGood initialState.config :=
  ⟨config_fields_ge_one.1 initialState ⟨none, some (-5), some 10, some 0⟩,
   config_fields_ge_one.2 initialState ⟨[], rfl⟩⟩

/-- Claim C4: in any state, applying the payload workMin = "abc" (NaN),
shortMin = "-5", longMin = "10", longEvery = "0" yields the sanitized
config (1, 1, 10, 4); invalid fields are coerced, never rejected (the
transition function is total by construction). -/
theorem apply_config_sanitizes_invalid (s : TimerState) :
    (reducer s (Action.applyConfig ⟨none, some (-5), some 10, some 0⟩)).config
      = ⟨1, 1, 10, 4⟩ := by
  simp only [reducer, clampMin, jsOrDefault]
  norm_num

/-- Claim C5: every action whose precondition fails is a no-op: Tick when
not Running, Start when Running, Pause when not Running, Resume when not
Paused all return the state unchanged. -/
theorem failed_precondition_noops (s : TimerState) :
    (s.status ≠ Status.running → reducer s Action.tick = s) ∧
    (s.status = Status.running → reducer s Action.start = s) ∧
    (s.status ≠ Status.running → reducer s Action.pause = s) ∧
    (s.status ≠ Status.paused → reducer s Action.resume = s) := by
  refine ⟨fun h => ?_, fun h => ?_, fun h => ?_, fun h => ?_⟩ <;> simp [reducer, h]

/-- Witness for C5: the Idle initial state absorbs Tick, Pause and Resume,
and a Running state absorbs Start. -/
theorem failed_precondition_noops_witness :
    reducer initialState Action.tick = initialState ∧
    reducer { initialState with status := Status.running } Action.start
      = { initialState with status := Status.running } ∧
    reducer initialState Action.pause = initialState ∧
    reducer initialState Action.resume = initialState :=
  ⟨(failed_precondition_noops initialState).1 (by decide),
   (failed_precondition_noops _).2.1 (by decide),
   (failed_precondition_noops initialState).2.2.1 (by decide),
   (failed_precondition_noops initialState).2.2.2 (by decide)⟩

/-- Claim C6: ResetSession, from any state, sets status to Idle, resets
the countdown to the current mode's duration and announces "Session
reset", leaving mode, config and the work counter untouched. -/
theorem reset_session_effect (s : TimerState) :
    reducer s Action.resetSession =
      { s with
        status := Status.idle,
        secondsLeft := secondsForMode s.mode s.config,
        announce := "Session reset" } := rfl

/-- Claim C7: SetMode(m), from any state, switches to mode m, goes Idle,
resets the countdown to m's duration and announces the session label;
the labels are Work, Short Break and Long Break. -/
theorem set_mode_effect (s : TimerState) (m : Mode) :
    (reducer s (Action.setMode m) =
      { s with
        mode := m,
        status := Status.idle,
        secondsLeft := secondsForMode m s.config,
        announce := "Session: " ++ modeLabel m }) ∧
    modeLabel Mode.work = "Work" ∧
    modeLabel Mode.shortBreak = "Short Break" ∧
    modeLabel Mode.longBreak = "Long Break" :=
  ⟨rfl, rfl, rfl, rfl⟩

/-- Claim C8: ApplyConfig is idempotent on the config: applying the same
raw payload twice in a row produces the same config as applying it once. -/
theorem apply_config_idempotent (s : TimerState) (p : RawConfig) :
    (reducer (reducer s (Action.applyConfig p)) (Action.applyConfig p)).config
      = (reducer s (Action.applyConfig p)).config := rfl

/-- Claim C9: every state reachable from the initial state has a strictly
positive countdown: mid-session ticks only keep a decremented value when
it is still positive, and completion resets it to the next duration. -/
theorem secondsLeft_pos_of_reachable (s : TimerState) (h : Reachable s) :
    0 < s.secondsLeft :=
  (reachable_inv s h).2

/-- Witness for C9: the initial state is reachable by the empty action
list and its countdown is positive. -/
theorem secondsLeft_pos_of_reachable_witness :
    Reachable initialState ∧ 0 < initialState.secondsLeft :=
  ⟨⟨[], rfl⟩, secondsLeft_pos_of_reachable initialState ⟨[], rfl⟩⟩

/-- Claim C10: a Running state with at least 2 seconds left is only
decremented by a tick: the result is the same state with secondsLeft one
lower, so mode, status, config, the counter and in particular the
announcement are untouched. -/
theorem midtick_decrements_only (s : TimerState)
    (hrun : s.status = Status.running) (h2 : 2 ≤ s.secondsLeft) :
    reducer s Action.tick = { s with secondsLeft := s.secondsLeft - 1 } ∧
    (reducer s Action.tick).announce = s.announce := by
  have hpos : s.secondsLeft - 1 > 0 := by linarith
  have heq : reducer s Action.tick = { s with secondsLeft := s.secondsLeft - 1 } := by
    simp only [reducer, hrun]
    simp [hpos]
  exact ⟨heq, by rw [heq]⟩

/-- Witness for C10: starting the initial state and ticking once drops the
countdown from 1500 to 1499 and leaves the empty announcement in place. -/
theorem midtick_decrements_only_witness :
    ({ initialState with status := Status.running } : TimerState).status = Status.running ∧
    (2 : ℚ) ≤ ({ initialState with status := Status.running } : TimerState).secondsLeft ∧
    (reducer { initialState with status := Status.running } Action.tick).secondsLeft = 1499 ∧
    (reducer { initialState with status := Status.running } Action.tick).announce = "" := by
  have h := midtick_decrements_only { initialState with status := Status.running } rfl
    (by norm_num [initialState])
  refine ⟨rfl, by norm_num [initialState], ?_, ?_⟩
  · rw [h.1]; norm_num [initialState]
  · rw [h.2]; rfl

end Pomodoro
